import Mathlib

/-!
Verification of the adapter SDK core (`sdk/backoff.py`, `sdk/adapter.py`).

Python floats are modelled as exact rationals (`ℚ`); the arithmetic the
backoff strategy performs (`*`, `2 ** n`, `min`, `max`, `+`) is exact on the
values the claims discuss, so `ℚ` is a faithful shallow embedding of the
computation.  The call `random.uniform(-jitter_amount, jitter_amount)` is
modelled by an explicit draw parameter `u`; theorems about jittered delays
constrain `u` to the interval the code samples from.
-/

namespace Sdk

/-- Embeds `BackoffStrategy.__init__` (`backoff.py`): the three configuration
fields `base`, `max_delay`, `jitter`. -/
structure BackoffStrategy where
  base : ℚ
  max_delay : ℚ
  jitter : ℚ
deriving DecidableEq

/-- Embeds `BackoffStrategy.next_delay` (`backoff.py` lines 45-73).
`attempt` is the (possibly negative) attempt number; `u` is the value the
call `random.uniform(-jitter_amount, jitter_amount)` returned (ignored when
`jitter <= 0`, exactly as in the source). -/
def BackoffStrategy.next_delay (s : BackoffStrategy) (attempt : ℤ) (u : ℚ) : ℚ :=
  let a : ℤ := if attempt < 0 then 0 else attempt
  let d0 : ℚ := s.base * 2 ^ a.toNat
  let d1 : ℚ := min d0 s.max_delay
  if 0 < s.jitter then max 0 (min (d1 + u) s.max_delay) else d1

/-!
Embedding of `sdk/adapter.py` (`BaseAdapter`).  The asynchronous methods are
modelled as pure state-transition functions.  Integrator hooks
(`connect_device`, `check_device_health`, `collect`) and the transport client
(`publish_asset_data`, `client.py`) are external collaborators: their outcomes
are inputs of the model — `none` means the call returned normally,
`some k` means it raised an exception of kind `k`.  Every hook invocation and
state transition is recorded in an event trace.  Task cancellation
(`asyncio.CancelledError`) and wall-clock time are concurrency aspects outside
the shallow embedding; sleeps are recorded as trace events.
-/

/-- Embeds the `DeviceState` enum of `models.py`. -/
inductive DeviceState
  | disconnected
  | connecting
  | connected
  | reconnecting
  | error
deriving DecidableEq

/-- Embeds the exception taxonomy of `exceptions.py` relevant to the adapter:
`ConnectionError`, `PublishError`, `DeviceError`, `DeviceConnectionError`,
`DeviceTimeoutError`, plus `other` for any exception outside the SDK
hierarchy. -/
inductive ErrKind
  | connectionError
  | publishError
  | deviceError
  | deviceConnection
  | deviceTimeout
  | other
deriving DecidableEq

/-- The `except (DeviceConnectionError, DeviceTimeoutError)` clauses of
`adapter.py`: exactly these two kinds are caught by the retry logic. -/
def retryable : ErrKind → Bool
  | ErrKind.deviceConnection => true
  | ErrKind.deviceTimeout => true
  | _ => false

/-- The `except DeviceError` clause of `_handle_device_error`:
`DeviceError` and its two subclasses. -/
def isDeviceErr : ErrKind → Bool
  | ErrKind.deviceError => true
  | ErrKind.deviceConnection => true
  | ErrKind.deviceTimeout => true
  | _ => false

/-- Observable actions of one adapter: state transitions
(`_set_device_state`), hook invocations, suspensions and transport calls. -/
inductive Event
  | setState (s : DeviceState)
  | connectAttempt
  | hookConnected
  | hookReconnected
  | hookDisconnected (e : ErrKind)
  | backoffSleep (attempt : ℤ)
  | healthCheck
  | collectData
  | publishData
  | idle
  | hookDisconnectDevice
  | hookOnStop
  | transportDisconnect
deriving DecidableEq

/-- The mutable fields of `BaseAdapter` the resilience engine reads and
writes: `_running`, `_device_state`, `_retry_count`, `_max_retries`,
`_device_connected`. -/
structure AdapterState where
  running : Bool
  device_state : DeviceState
  retry_count : ℕ
  max_retries : ℕ
  device_connected : Bool
deriving DecidableEq

/-- One run of the `while` loop of `_ensure_device_connected`
(`adapter.py` lines 200-240).  `out k` is the outcome of the `k`-th
`connect_device()` call of this run.  Each failing iteration increments
`retry_count`, so `max_retries - retry_count` iterations suffice: the loop
is driven by that fuel, and fuel `0` coincides with the loop guard
`retry_count < max_retries` being false.  Result: final state, event trace,
and the exception propagating out of the loop (if any). -/
def ensureLoop (out : ℕ → Option ErrKind) (k : ℕ) (st : AdapterState) :
    ℕ → AdapterState × List Event × Option ErrKind
  | 0 => (st, [], none)
  | fuel + 1 =>
    if st.retry_count < st.max_retries ∧ st.running = true then
      -- First attempt or reconnection
      let connState : DeviceState :=
        if st.retry_count = 0 then DeviceState.connecting else DeviceState.reconnecting
      let st1 : AdapterState := { st with device_state := connState }
      match out k with
      | none =>
        -- Mark as connected
        let st2 : AdapterState :=
          { st1 with device_connected := true, retry_count := 0,
                     device_state := DeviceState.connected }
        -- Call appropriate event hook (the source reads `_retry_count`
        -- *after* the reset above)
        let hook : Event :=
          if st2.retry_count = 0 then Event.hookConnected else Event.hookReconnected
        (st2, [Event.setState connState, Event.connectAttempt,
               Event.setState DeviceState.connected, hook], none)
      | some e =>
        if retryable e = true then
          let st2 : AdapterState := { st1 with retry_count := st1.retry_count + 1 }
          if st2.max_retries ≤ st2.retry_count then
            ({ st2 with device_state := DeviceState.error },
             [Event.setState connState, Event.connectAttempt,
              Event.setState DeviceState.error, Event.hookDisconnected e],
             some ErrKind.deviceError)
          else
            let res := ensureLoop out (k + 1) st2 fuel
            (res.1,
             [Event.setState connState, Event.connectAttempt,
              Event.backoffSleep ((st2.retry_count : ℤ) - 1)] ++ res.2.1,
             res.2.2)
        else
          -- an exception that is neither DeviceConnectionError nor
          -- DeviceTimeoutError propagates out of the method
          (st1, [Event.setState connState, Event.connectAttempt], some e)
    else (st, [], none)

/-- Embeds `_ensure_device_connected` (`adapter.py` lines 191-240). -/
def ensure_device_connected (out : ℕ → Option ErrKind) (st : AdapterState) :
    AdapterState × List Event × Option ErrKind :=
  if st.device_connected = true then (st, [], none)
  else ensureLoop out 0 st (st.max_retries - st.retry_count)

/-- Embeds `_handle_device_error` (`adapter.py` lines 242-262).  `rc k` is
the outcome of the `k`-th `connect_device()` call of the reconnection it
performs. -/
def handle_device_error (rc : ℕ → Option ErrKind) (e : ErrKind) (st : AdapterState) :
    AdapterState × List Event × Option ErrKind :=
  if retryable e = true then
    let st1 : AdapterState :=
      { st with device_connected := false, device_state := DeviceState.disconnected }
    let res := ensure_device_connected rc st1
    -- `except DeviceError: pass`; anything else would propagate
    let r : Option ErrKind :=
      match res.2.2 with
      | none => none
      | some k => if isDeviceErr k = true then none else some k
    (res.1,
     [Event.setState DeviceState.disconnected, Event.hookDisconnected e] ++ res.2.1,
     r)
  else
    -- Non-device errors are logged but not retried
    (st, [], none)

/-- The `except` clauses at the bottom of `_collect_loop`
(`adapter.py` lines 351-358), applied to an exception `e` raised by the
`try` body. -/
def cycleCatch (rc : ℕ → Option ErrKind) (e : ErrKind) (st : AdapterState) :
    AdapterState × List Event × Option ErrKind :=
  if retryable e = true then handle_device_error rc e st
  else (st, [], none)

/-- Outcomes of the external calls one cycle of `_collect_loop` makes:
`connect k` / `rc k` are the outcomes of the `connect_device()` calls during
step 1 resp. during recovery, `health` of `check_device_health()`, `collect`
of `collect()`; `hasValues` tells whether `collect()` returned a non-empty
batch, and `publishFails` whether `publish_asset_data` failed (`client.py`
wraps every publish failure in `PublishError`). -/
structure CycleEnv where
  connect : ℕ → Option ErrKind
  rc : ℕ → Option ErrKind
  health : Option ErrKind
  collect : Option ErrKind
  hasValues : Bool
  publishFails : Bool

/-- The final `await asyncio.sleep(self.collect_interval)` of the loop body:
reached only when no exception is propagating. -/
def idleEvents : Option ErrKind → List Event
  | none => [Event.idle]
  | some _ => []

/-- One iteration of the `while self._running` body of `_collect_loop`
(`adapter.py` lines 330-361). -/
def collect_cycle (env : CycleEnv) (st : AdapterState) :
    AdapterState × List Event × Option ErrKind :=
  let res1 := ensure_device_connected env.connect st
  match res1.2.2 with
  | some e =>
    let res2 := cycleCatch env.rc e res1.1
    (res2.1, res1.2.1 ++ res2.2.1 ++ idleEvents res2.2.2, res2.2.2)
  | none =>
    match env.health with
    | some e =>
      let res2 := cycleCatch env.rc e res1.1
      (res2.1, res1.2.1 ++ [Event.healthCheck] ++ res2.2.1 ++ idleEvents res2.2.2,
       res2.2.2)
    | none =>
      match env.collect with
      | some e =>
        let res2 := cycleCatch env.rc e res1.1
        (res2.1,
         res1.2.1 ++ [Event.healthCheck, Event.collectData] ++ res2.2.1
           ++ idleEvents res2.2.2,
         res2.2.2)
      | none =>
        if env.hasValues = true then
          if env.publishFails = true then
            let res2 := cycleCatch env.rc ErrKind.publishError res1.1
            (res2.1,
             res1.2.1 ++ [Event.healthCheck, Event.collectData, Event.publishData]
               ++ res2.2.1 ++ idleEvents res2.2.2,
             res2.2.2)
          else
            (res1.1,
             res1.2.1 ++ [Event.healthCheck, Event.collectData, Event.publishData,
               Event.idle],
             none)
        else
          (res1.1, res1.2.1 ++ [Event.healthCheck, Event.collectData, Event.idle], none)

/-- Embeds `stop` (`adapter.py` lines 297-326).  `disconnectFails` tells
whether the integrator's `disconnect_device()` hook raised (the exception is
caught and logged).  Task cancellation is concurrency and is not modelled;
the remaining effects on the adapter's fields and hooks are. -/
def stop (disconnectFails : Bool) (st : AdapterState) : AdapterState × List Event :=
  if st.running = false then (st, [])
  else
    let st1 : AdapterState := { st with running := false }
    let res :=
      if st1.device_connected = true then
        if disconnectFails = true then (st1, [Event.hookDisconnectDevice])
        else
          ({ st1 with device_connected := false,
                      device_state := DeviceState.disconnected },
           [Event.hookDisconnectDevice, Event.setState DeviceState.disconnected])
      else (st1, ([] : List Event))
    (res.1, res.2 ++ [Event.hookOnStop, Event.transportDisconnect])

/-- The adapter's state right after `start()` set `_running = True`
(`__init__` gives `DISCONNECTED`, retry count 0, max retries 5,
device not connected). -/
def startedAdapter : AdapterState :=
  ⟨true, DeviceState.disconnected, 0, 5, false⟩

/-- A `connect_device` hook that raises `DeviceConnectionError` on its first
call and succeeds from the second call on. -/
def failOnce : ℕ → Option ErrKind :=
  fun n => if n = 0 then some ErrKind.deviceConnection else none

/-- A `connect_device` hook that always raises `DeviceConnectionError`. -/
def alwaysFail : ℕ → Option ErrKind :=
  fun _ => some ErrKind.deviceConnection

/-- The adapter's state after the retry budget is exhausted: state `ERROR`,
retry count equal to max retries, device not connected, still running. -/
def exhaustedAdapter : AdapterState :=
  ⟨true, DeviceState.error, 5, 5, false⟩

/-- Trace predicate: scanning an event list from the device state `prev`,
every `setState connected` is immediately preceded (in the state sequence)
by `connecting` or `reconnecting`. -/
def connectedOk : DeviceState → List Event → Prop
  | _, [] => True
  | prev, Event.setState s :: rest =>
    (s = DeviceState.connected →
      prev = DeviceState.connecting ∨ prev = DeviceState.reconnecting)
    ∧ connectedOk s rest
  | prev, _ :: rest => connectedOk prev rest

end Sdk

namespace Sdk

/-! Helper lemmas. -/

theorem connectedOk_append {l2 : List Event} (h2 : ∀ q, connectedOk q l2) :
    ∀ (l1 : List Event) (p : DeviceState), connectedOk p l1 → connectedOk p (l1 ++ l2) := by
  intro l1
  induction l1 with
  | nil => intro p _; exact h2 p
  | cons e t ih =>
    intro p h1
    cases e
    case setState s => exact ⟨h1.1, ih s h1.2⟩
    all_goals exact ih p h1

theorem ensureLoop_connectedOk (out : ℕ → Option ErrKind) :
    ∀ (fuel k : ℕ) (st : AdapterState) (p : DeviceState),
      connectedOk p (ensureLoop out k st fuel).2.1 := by
  intro fuel
  induction fuel with
  | zero => intro k st p; simp [ensureLoop, connectedOk]
  | succ n ih =>
    intro k st p
    simp only [ensureLoop]
    split
    · split
      · -- connect_device succeeded
        by_cases h : st.retry_count = 0 <;> simp [connectedOk, h]
      · -- connect_device raised
        split
        · split
          · -- retry budget exhausted
            by_cases h : st.retry_count = 0 <;> simp [connectedOk, h]
          · -- sleep and loop again
            by_cases h : st.retry_count = 0 <;> simp [connectedOk, h] <;> exact ih _ _ _
        · -- non-retryable exception propagates
          by_cases h : st.retry_count = 0 <;> simp [connectedOk, h]
    · simp [connectedOk]

theorem ensure_connectedOk (out : ℕ → Option ErrKind) (st : AdapterState) (p : DeviceState) :
    connectedOk p (ensure_device_connected out st).2.1 := by
  unfold ensure_device_connected
  split
  · simp [connectedOk]
  · exact ensureLoop_connectedOk out _ 0 st p

theorem handle_connectedOk (rc : ℕ → Option ErrKind) (e : ErrKind) (st : AdapterState)
    (p : DeviceState) : connectedOk p (handle_device_error rc e st).2.1 := by
  simp only [handle_device_error]
  split
  · simp only [connectedOk, List.cons_append, List.nil_append]
    refine ⟨by simp, ?_⟩
    exact ensure_connectedOk rc _ DeviceState.disconnected
  · simp [connectedOk]

theorem cycleCatch_connectedOk (rc : ℕ → Option ErrKind) (e : ErrKind) (st : AdapterState)
    (p : DeviceState) : connectedOk p (cycleCatch rc e st).2.1 := by
  unfold cycleCatch
  split
  · exact handle_connectedOk rc e st p
  · simp [connectedOk]

theorem idle_connectedOk (r : Option ErrKind) (q : DeviceState) :
    connectedOk q (idleEvents r) := by
  cases r <;> simp [idleEvents, connectedOk]

/-! Claim theorems. -/

/-- C5: with jitter 0, `next_delay attempt` equals `min (base * 2 ^ attempt) max_delay`
for every `attempt ≥ 0`; in particular with base 1 and max_delay 60 it returns
1, 2, 4 for attempts 0, 1, 2 and the clamped 60 for attempt 10. -/
theorem next_delay_zero_jitter :
    (∀ (s : BackoffStrategy) (attempt : ℤ) (u : ℚ), s.jitter = 0 → 0 ≤ attempt →
      s.next_delay attempt u = min (s.base * 2 ^ attempt.toNat) s.max_delay)
    ∧ BackoffStrategy.next_delay ⟨1, 60, 0⟩ 0 0 = 1
    ∧ BackoffStrategy.next_delay ⟨1, 60, 0⟩ 1 0 = 2
    ∧ BackoffStrategy.next_delay ⟨1, 60, 0⟩ 2 0 = 4
    ∧ BackoffStrategy.next_delay ⟨1, 60, 0⟩ 10 0 = 60 := by
  refine ⟨?_, by norm_num [BackoffStrategy.next_delay, min_def],
    by norm_num [BackoffStrategy.next_delay, min_def, show Int.toNat 1 = 1 from rfl],
    by norm_num [BackoffStrategy.next_delay, min_def, show Int.toNat 2 = 2 from rfl],
    by norm_num [BackoffStrategy.next_delay, min_def, show Int.toNat 10 = 10 from rfl]⟩
  intro s attempt u hj ha
  simp [BackoffStrategy.next_delay, hj, not_lt.2 ha]

/-- Witness for C5: instantiates the universal part at base 1, max_delay 60,
jitter 0, attempt 3, draw 0. -/
theorem next_delay_zero_jitter_witness :
    BackoffStrategy.next_delay ⟨1, 60, 0⟩ 3 0 = min ((1:ℚ) * 2 ^ (3:ℤ).toNat) 60 :=
  next_delay_zero_jitter.1 ⟨1, 60, 0⟩ 3 0 rfl (by decide)

/-- C6: a negative attempt number is computed exactly as attempt 0 (for any
jitter configuration and any random draw), and no error is raised. -/
theorem next_delay_negative_attempt :
    ∀ (s : BackoffStrategy) (attempt : ℤ) (u : ℚ), attempt < 0 →
      s.next_delay attempt u = s.next_delay 0 u := by
  intro s attempt u ha
  simp [BackoffStrategy.next_delay, ha]

/-- Witness for C6: attempt -3 computes as attempt 0. -/
theorem next_delay_negative_attempt_witness :
    BackoffStrategy.next_delay ⟨1, 60, 0⟩ (-3) 0 = BackoffStrategy.next_delay ⟨1, 60, 0⟩ 0 0 :=
  next_delay_negative_attempt ⟨1, 60, 0⟩ (-3) 0 (by decide)

/-- C7: with jitter `0 < j ≤ 1` and a draw `u` inside the sampled interval
`[-unjittered * j, unjittered * j]`, the returned delay lies in
`[max 0 (unjittered * (1 - j)), min max_delay (unjittered * (1 + j))]`,
where `unjittered = min (base * 2 ^ max attempt 0) max_delay`
(assuming a well-formed configuration: base ≥ 0, max_delay ≥ 0). -/
theorem next_delay_jitter_bounds :
    ∀ (s : BackoffStrategy) (attempt : ℤ) (u unj : ℚ),
      unj = min (s.base * 2 ^ (max attempt 0).toNat) s.max_delay →
      0 < s.jitter → s.jitter ≤ 1 → 0 ≤ s.base → 0 ≤ s.max_delay →
      -(unj * s.jitter) ≤ u → u ≤ unj * s.jitter →
      max 0 (unj * (1 - s.jitter)) ≤ s.next_delay attempt u ∧
        s.next_delay attempt u ≤ min s.max_delay (unj * (1 + s.jitter)) := by
  intro s attempt u unj hunj hj hj1 hb hm hu1 hu2
  have hpow : ((if attempt < 0 then 0 else attempt) : ℤ) = max attempt 0 := by
    rcases lt_or_le attempt 0 with h | h
    · rw [if_pos h, max_eq_right h.le]
    · rw [if_neg (not_lt.2 h), max_eq_left h]
  have hnd : s.next_delay attempt u = max 0 (min (unj + u) s.max_delay) := by
    simp only [BackoffStrategy.next_delay]
    rw [hpow, ← hunj, if_pos hj]
  have h0 : (0:ℚ) ≤ unj := by
    rw [hunj]
    exact le_min (mul_nonneg hb (by positivity)) hm
  have hle : unj ≤ s.max_delay := by
    rw [hunj]
    exact min_le_right _ _
  have hja : (0:ℚ) ≤ unj * s.jitter := mul_nonneg h0 hj.le
  rw [hnd]
  constructor
  · apply max_le (le_max_left _ _)
    refine le_trans (le_min ?_ ?_) (le_max_right _ _)
    · nlinarith
    · nlinarith
  · apply max_le (le_min hm (by nlinarith))
    apply le_min (min_le_right _ _)
    exact le_trans (min_le_left _ _) (by nlinarith)

/-- Witness for C7: base 1, max_delay 60, jitter 1/10, attempt 3, draw 0;
the unjittered delay is 8 and the returned delay lies in [36/5, 44/5]. -/
theorem next_delay_jitter_bounds_witness :
    max 0 ((8:ℚ) * (1 - 1/10)) ≤ BackoffStrategy.next_delay ⟨1, 60, 1/10⟩ 3 0 ∧
      BackoffStrategy.next_delay ⟨1, 60, 1/10⟩ 3 0 ≤ min 60 ((8:ℚ) * (1 + 1/10)) :=
  next_delay_jitter_bounds ⟨1, 60, 1/10⟩ 3 0 8
    (by norm_num [min_def, show Int.toNat 3 = 3 from rfl]) (by norm_num)
    (by norm_num) (by norm_num) (by norm_num) (by norm_num) (by norm_num)

/-- C1: the claim says a success after at least one failed retry invokes
`on_device_reconnected` once and not `on_device_connected`.  The code does
the opposite: `_retry_count` is reset to 0 before the `if _retry_count == 0`
hook selection, so `on_device_reconnected` is unreachable — no run of
`_ensure_device_connected` ever invokes it — and the fail-once-then-succeed
run invokes `on_device_connected` for its success after a failed retry. -/
theorem reconnected_hook_never_called :
    (∀ (out : ℕ → Option ErrKind) (st : AdapterState),
      Event.hookReconnected ∉ (ensure_device_connected out st).2.1)
    ∧ (ensure_device_connected failOnce startedAdapter).2.1.count Event.hookConnected = 1
    ∧ (ensure_device_connected failOnce startedAdapter).2.1.count Event.hookReconnected = 0
    ∧ (ensure_device_connected failOnce startedAdapter).1.device_state
        = DeviceState.connected := by
  have hloop : ∀ (out : ℕ → Option ErrKind) (fuel k : ℕ) (st : AdapterState),
      Event.hookReconnected ∉ (ensureLoop out k st fuel).2.1 := by
    intro out fuel
    induction fuel with
    | zero => intro k st; simp [ensureLoop]
    | succ n ih =>
      intro k st
      simp only [ensureLoop]
      split
      · split
        · simp
        · split
          · split
            · simp
            · simp only [List.cons_append, List.nil_append, List.mem_cons]
              push_neg
              exact ⟨by simp, by simp, by simp, ih _ _⟩
          · simp
      · simp
  refine ⟨?_, by decide, by decide, by decide⟩
  intro out st
  unfold ensure_device_connected
  split
  · simp
  · exact hloop out _ 0 st

/-- C2: the claim (and the repository's own test
`test_max_retries_prevents_infinite_loop`) says the retry count is reset to
zero once max retries is reached and the error is surfaced.  The code never
resets it: after five always-failing attempts the state is `ERROR`,
`on_device_disconnected` was invoked once with the last error, `DeviceError`
propagates — and `_retry_count` is left at 5, not 0. -/
theorem retry_count_left_at_max_on_exhaustion :
    (ensure_device_connected alwaysFail startedAdapter).1.retry_count = 5
    ∧ (ensure_device_connected alwaysFail startedAdapter).1.device_state = DeviceState.error
    ∧ (ensure_device_connected alwaysFail startedAdapter).2.2 = some ErrKind.deviceError
    ∧ (ensure_device_connected alwaysFail startedAdapter).2.1.count
        (Event.hookDisconnected ErrKind.deviceConnection) = 1 := by
  refine ⟨by decide, by decide, by decide, by decide⟩

/-- C3: the claim says that after retries are exhausted (state `ERROR`,
device flag false, still running) the next cycle's ensure-connected step
invokes `connect_device` again.  Because `_retry_count` was left at
`max_retries`, the `while` guard is false and `_ensure_device_connected`
returns immediately: no `connect_device` call, no state change, for any
behaviour of the hook. -/
theorem no_reconnect_attempt_after_exhaustion :
    ∀ out : ℕ → Option ErrKind,
      ensure_device_connected out exhaustedAdapter = (exhaustedAdapter, [], none) := by
  intro out
  rfl

/-- C4: in any cycle of the orchestrator, from any starting state, every
transition to `CONNECTED` in the emitted state sequence is immediately
preceded by `CONNECTING` or `RECONNECTING`; the device state never moves to
`CONNECTED` directly from `DISCONNECTED` or `ERROR`. -/
theorem connected_only_from_intermediate :
    ∀ (env : CycleEnv) (st : AdapterState) (p : DeviceState),
      connectedOk p (collect_cycle env st).2.1 := by
  intro env st p
  simp only [collect_cycle]
  split
  · -- step 1 raised
    rw [List.append_assoc]
    refine connectedOk_append (fun q => ?_) _ p (ensure_connectedOk env.connect st p)
    exact connectedOk_append (fun q' => idle_connectedOk _ q') _ q
      (cycleCatch_connectedOk _ _ _ q)
  · split
    · -- health check raised
      rw [List.append_assoc, List.append_assoc]
      refine connectedOk_append (fun q => ?_) _ p (ensure_connectedOk env.connect st p)
      exact connectedOk_append (fun q' => idle_connectedOk _ q') _ q
        (cycleCatch_connectedOk _ _ _ q)
    · split
      · -- collect raised
        rw [List.append_assoc, List.append_assoc]
        refine connectedOk_append (fun q => ?_) _ p (ensure_connectedOk env.connect st p)
        exact connectedOk_append (fun q' => idle_connectedOk _ q') _ q
          (cycleCatch_connectedOk _ _ _ q)
      · split
        · split
          · -- publish raised
            rw [List.append_assoc, List.append_assoc]
            refine connectedOk_append (fun q => ?_) _ p (ensure_connectedOk env.connect st p)
            exact connectedOk_append (fun q' => idle_connectedOk _ q') _ q
              (cycleCatch_connectedOk _ _ _ q)
          · -- publish succeeded
            refine connectedOk_append (fun q => ?_) _ p (ensure_connectedOk env.connect st p)
            simp [connectedOk]
        · -- nothing to publish
          refine connectedOk_append (fun q => ?_) _ p (ensure_connectedOk env.connect st p)
          simp [connectedOk]

/-- C8: a cycle that starts with the device connected and whose health-check,
collect, or publish step raises a non-retryable error (kind neither
`DeviceConnection` nor `DeviceTimeout`) ends early: the adapter state —
including `DeviceState` and the retry count — is exactly the starting state,
no hook beyond the failing step runs, and the cycle proceeds directly to the
idle suspension. -/
theorem nonretryable_error_frame :
    ∀ (c r : ℕ → Option ErrKind) (e : ErrKind) (co : Option ErrKind) (hv pf : Bool)
      (st : AdapterState),
      st.device_connected = true → retryable e = false →
      collect_cycle ⟨c, r, some e, co, hv, pf⟩ st
          = (st, [Event.healthCheck, Event.idle], none)
      ∧ collect_cycle ⟨c, r, none, some e, hv, pf⟩ st
          = (st, [Event.healthCheck, Event.collectData, Event.idle], none)
      ∧ collect_cycle ⟨c, r, none, none, true, true⟩ st
          = (st, [Event.healthCheck, Event.collectData, Event.publishData, Event.idle],
             none) := by
  intro c r e co hv pf st hc hre
  have hens : ensure_device_connected c st = (st, [], none) := by
    simp [ensure_device_connected, hc]
  have hcat : cycleCatch r e st = (st, [], none) := by
    simp [cycleCatch, hre]
  have hcatp : cycleCatch r ErrKind.publishError st = (st, [], none) := by
    simp [cycleCatch, retryable]
  refine ⟨?_, ?_, ?_⟩ <;> simp [collect_cycle, hens, hcat, hcatp, idleEvents]

/-- Witness for C8: device connected, hooks raising plain `Exception`. -/
theorem nonretryable_error_frame_witness :
    collect_cycle ⟨fun _ => none, fun _ => none, some ErrKind.other, none, false, false⟩
        ⟨true, DeviceState.connected, 0, 5, true⟩
      = (⟨true, DeviceState.connected, 0, 5, true⟩, [Event.healthCheck, Event.idle], none)
    ∧ collect_cycle ⟨fun _ => none, fun _ => none, none, some ErrKind.other, false, false⟩
        ⟨true, DeviceState.connected, 0, 5, true⟩
      = (⟨true, DeviceState.connected, 0, 5, true⟩,
         [Event.healthCheck, Event.collectData, Event.idle], none)
    ∧ collect_cycle ⟨fun _ => none, fun _ => none, none, none, true, true⟩
        ⟨true, DeviceState.connected, 0, 5, true⟩
      = (⟨true, DeviceState.connected, 0, 5, true⟩,
         [Event.healthCheck, Event.collectData, Event.publishData, Event.idle], none) :=
  nonretryable_error_frame (fun _ => none) (fun _ => none) ErrKind.other none false false
    ⟨true, DeviceState.connected, 0, 5, true⟩ rfl rfl

/-- C9: a cycle that starts already `Connected` and whose health-check and
collect hooks complete without raising leaves `DeviceState` at `Connected`,
whatever the collected batch and the publish outcome are. -/
theorem cycle_connected_idempotent :
    ∀ (c r : ℕ → Option ErrKind) (hv pf : Bool) (st : AdapterState),
      st.device_connected = true → st.device_state = DeviceState.connected →
      (collect_cycle ⟨c, r, none, none, hv, pf⟩ st).1.device_state
        = DeviceState.connected := by
  intro c r hv pf st hc hs
  have hens : ensure_device_connected c st = (st, [], none) := by
    simp [ensure_device_connected, hc]
  have hcatp : cycleCatch r ErrKind.publishError st = (st, [], none) := by
    simp [cycleCatch, retryable]
  cases hv <;> cases pf <;> simp [collect_cycle, hens, hcatp, hs]

/-- Witness for C9: connected adapter, one successful cycle with values. -/
theorem cycle_connected_idempotent_witness :
    (collect_cycle ⟨fun _ => none, fun _ => none, none, none, true, false⟩
        ⟨true, DeviceState.connected, 0, 5, true⟩).1.device_state
      = DeviceState.connected :=
  cycle_connected_idempotent (fun _ => none) (fun _ => none) true false
    ⟨true, DeviceState.connected, 0, 5, true⟩ rfl rfl

/-- C10: `stop` on an adapter whose running flag is already false returns
immediately — no `disconnect_device`, no `on_stop`, no transport disconnect,
no change of any field; and since any `stop` leaves the running flag false,
a second consecutive `stop` has no additional effect. -/
theorem stop_idempotent :
    (∀ (d : Bool) (st : AdapterState), st.running = false → stop d st = (st, []))
    ∧ (∀ (d d' : Bool) (st : AdapterState),
        stop d' (stop d st).1 = ((stop d st).1, [])) := by
  have hrun : ∀ (d : Bool) (st : AdapterState), (stop d st).1.running = false := by
    intro d st
    by_cases hr : st.running = false
    · simp [stop, hr]
    · simp only [stop, if_neg hr]
      by_cases hd : st.device_connected = true <;> by_cases hf : d = true <;>
        simp [hd, hf]
  have hstop1 : ∀ (d : Bool) (st : AdapterState), st.running = false → stop d st = (st, []) := by
    intro d st h
    simp [stop, h]
  exact ⟨hstop1, fun d d' st => hstop1 d' _ (hrun d st)⟩

/-- Witness for C10: stopping a never-started adapter is a no-op. -/
theorem stop_idempotent_witness :
    stop true ⟨false, DeviceState.disconnected, 0, 5, false⟩
      = (⟨false, DeviceState.disconnected, 0, 5, false⟩, []) :=
  stop_idempotent.1 true ⟨false, DeviceState.disconnected, 0, 5, false⟩ rfl

end Sdk

